import Mathlib

/-!
Verification development for the `coperlm/marlin` demo repository.

The repository contains two generations of a Marlin zkSNARK demo harness:

* `src/marlin-simulator.js` — class `MarlinSimulator`: a four-stage pipeline
  (setup / index / prove / verify), an artifact sizing model, and per-circuit
  constraint validators.  Embedded below in namespace `MarlinSimulator`.
* `src/unnamed/part_000` — classes `RealMarlinSystem` and a second
  `MarlinSimulator` subclass: a "real system" façade with a `full_demo`
  orchestration, plus an expression evaluator and an error-accumulating
  custom-circuit validator.  Embedded below in namespace `RealMarlin`.

JavaScript numbers are modelled as `ℚ` (the repository only manipulates small
decimal values; float rounding is not load-bearing for any property checked
here), command-line integers as `ℤ`, and JS values that may be a number, a
string or absent as the inductive `JSVal`.  `Math.random()` draws are made
explicit arguments so that data flow from randomness is visible in the types.
-/

/-- A JavaScript value as used for constraint operands and variable values:
a number, a string, or absent (`undefined`/`null`). -/
inductive JSVal where
  | num (q : ℚ)
  | str (s : String)
  | undef
  deriving DecidableEq

/-- JavaScript truthiness for `JSVal`: `0`, the empty string and
`undefined` are falsy, everything else is truthy. -/
def truthy : JSVal → Bool
  | .num q => if q = 0 then false else true
  | .str s => if s = "" then false else true
  | .undef => false

/-- JavaScript strict equality `===` restricted to `JSVal`. -/
def jsEq : JSVal → JSVal → Bool
  | .num a, .num b => a == b
  | .str a, .str b => a == b
  | .undef, .undef => true
  | _, _ => false

/-- Numeric value of a list of decimal digit characters. -/
def natOfDigits (ds : List Char) : ℕ :=
  ds.foldl (fun a c => 10 * a + (c.toNat - 48)) 0

/-- Model of JavaScript `parseFloat` on the decimal literals the repository
feeds it: optional leading spaces, optional sign, integer digits, optional
fractional digits; the longest valid prefix is parsed and `none` models `NaN`
(no digits at all).  Exponents and `Infinity` never occur in this code base
and are not modelled. -/
def parseFloat (s : String) : Option ℚ :=
  let cs := s.toList.dropWhile (fun c => c == ' ')
  let signAndRest : Bool × List Char :=
    match cs with
    | '-' :: rest => (true, rest)
    | '+' :: rest => (false, rest)
    | _ => (false, cs)
  let ints := signAndRest.2.takeWhile Char.isDigit
  let rest := signAndRest.2.dropWhile Char.isDigit
  let fracs : List Char :=
    match rest with
    | '.' :: r2 => r2.takeWhile Char.isDigit
    | _ => []
  if ints.isEmpty && fracs.isEmpty then none
  else
    let mag : ℚ :=
      if fracs.isEmpty then (natOfDigits ints : ℚ)
      else (natOfDigits ints : ℚ) + (natOfDigits fracs : ℚ) / (10 : ℚ) ^ fracs.length
    some (if signAndRest.1 then -mag else mag)

/-- String literals used by the validators, named once so the rest of the
file can refer to them. -/
def invalidStr : String := "invalid"

def oneStr : String := "1"

def zeroStr : String := "0"

def publicStr : String := "public"

def privateStr : String := "private"

def simpleStr : String := "simple"

def multiplicationStr : String := "multiplication"

def quadraticStr : String := "quadratic"

def hashStr : String := "hash"

def customStr : String := "custom"

def xStr : String := "x"

namespace RealMarlin

/-! Embedding of `src/unnamed/part_000`. -/

/-- Result of `RealMarlinSystem.simulateVerification(publicC)`
(part_000 lines 75–95).  The verification hardcodes `witnessA = 3`,
`witnessB = 5` and compares `3 * 5` against `parseInt(publicC)`; the
command-line argument is already an integer, so `parseInt` is the identity
here.  `verify_time` is `Math.floor(3 + Math.random() * 8)`, made an explicit
argument. -/
structure RustVerifyResult where
  success : Bool
  is_valid : Bool
  verify_time : ℕ
  deriving DecidableEq

/-- `RealMarlinSystem.simulateVerification` (part_000 lines 75–95). -/
def simulateVerification (publicC : ℤ) (vt : ℕ) : RustVerifyResult :=
  let witnessA : ℤ := 3
  let witnessB : ℤ := 5
  { success := true
    is_valid := witnessA * witnessB == publicC
    verify_time := vt }

/-- Per-stage timings of a full demo run; in the source each is drawn from
`Math.random`, so they are explicit arguments here. -/
structure FullDemoTiming where
  setup_ms : ℕ
  index_ms : ℕ
  prove_ms : ℕ
  verify_ms : ℕ
  total_ms : ℕ
  deriving DecidableEq

/-- Result object of `RealMarlinSystem.simulateFullDemo(a, b, c)`
(part_000 lines 97–151), text fields omitted. -/
structure FullDemoResult where
  demo_complete : Bool
  is_constraint_satisfied : Bool
  proof_verification : Bool
  rust_execution : Bool
  timing : FullDemoTiming
  deriving DecidableEq

/-- `RealMarlinSystem.simulateFullDemo` (part_000 lines 97–151): runs the
four-stage demo and returns the combined report.  Setup, index and prove
always succeed and contribute only timing; the verify verdict comes from
`simulateVerification c` (hardcoded witness 3, 5), while
`is_constraint_satisfied` is re-derived from the actual inputs as
`parseInt(a) * parseInt(b) === parseInt(c)`. -/
def simulateFullDemo (a b c : ℤ) (t : FullDemoTiming) : FullDemoResult :=
  let verifyResult := simulateVerification c t.verify_ms
  { demo_complete := true
    is_constraint_satisfied := a * b == c
    proof_verification := verifyResult.is_valid
    rust_execution := true
    timing := t }

/-- `MarlinSimulator.evaluateExpression(expr, variables)`
(part_000 lines 426–438): a number evaluates to itself; a string is first
looked up as a variable name, then parsed with `parseFloat`; everything else
falls back to `0`.  The JS object of vars is modelled as an association
list. -/
def evaluateExpression (expr : JSVal) (vars : List (String × ℚ)) : ℚ :=
  match expr with
  | .num q => q
  | .str s =>
    match List.lookup s vars with
    | some v => v
    | none =>
      match parseFloat s with
      | some q => q
      | none => 0
  | .undef => 0

/-- One constraint of a custom circuit: a multiplication gate
`left × right = output` whose operands are JS values. -/
structure Constraint where
  left : JSVal
  right : JSVal
  output : JSVal
  deriving DecidableEq

/-- The errors `MarlinSimulator.validateCustomCircuit` (part_000 lines
392–424) can push, abstracting the Chinese message strings by their
distinguishing content: the constraint index (0-based here; the messages
print `index + 1`) and the values the message interpolates. -/
inductive ConstraintError where
  | incomplete (idx : ℕ)
  | contradiction (idx : ℕ)
  | zeroAbsorption (idx : ℕ) (claimed : ℚ)
  | mismatch (idx : ℕ) (l r o : ℚ)
  deriving DecidableEq

/-- The per-constraint body of the `forEach` loop in
`MarlinSimulator.validateCustomCircuit` (part_000 lines 396–418): a falsy
operand yields the incomplete-constraint error before any evaluation;
otherwise the three contradiction rules are applied in source order.
The `try`/`catch` around evaluation is dead code (`evaluateExpression`
cannot throw) and is not modelled. -/
def checkConstraint (vars : List (String × ℚ)) (c : Constraint) (i : ℕ) :
    Option ConstraintError :=
  if !(truthy c.left) || !(truthy c.right) || !(truthy c.output) then
    some (.incomplete i)
  else
    let l := evaluateExpression c.left vars
    let r := evaluateExpression c.right vars
    let o := evaluateExpression c.output vars
    if l = 1 ∧ r = 1 ∧ o = 0 then some (.contradiction i)
    else if l = 0 ∧ ¬o = 0 then some (.zeroAbsorption i o)
    else if ¬l * r = o then some (.mismatch i l r o)
    else none

/-- The `forEach` accumulation of `validateCustomCircuit`: every constraint
is visited in order, each failing one pushes exactly one error; `k` is the
index of the first constraint of the remaining list. -/
def collectErrors (vars : List (String × ℚ)) :
    List Constraint → ℕ → List ConstraintError
  | [], _ => []
  | c :: rest, k =>
    match checkConstraint vars c k with
    | some e => e :: collectErrors vars rest (k + 1)
    | none => collectErrors vars rest (k + 1)

/-- Return value of part_000's `validateCustomCircuit`. -/
structure ValidationResult where
  isValid : Bool
  errors : List ConstraintError
  deriving DecidableEq

/-- `MarlinSimulator.validateCustomCircuit(variables, constraints, circuitType)`
(part_000 lines 392–424).  The `circuitType` parameter only feeds a log line
and is omitted. -/
def validateCustomCircuit (vars : List (String × ℚ))
    (constraints : List Constraint) : ValidationResult :=
  let errors := collectErrors vars constraints 0
  { isValid := errors.isEmpty
    errors := errors }

end RealMarlin

namespace MarlinSimulator

/-! Embedding of `src/marlin-simulator.js`. -/

/-- `Math.abs` on the rational model of JS numbers. -/
def jsAbs (q : ℚ) : ℚ :=
  if q < 0 then -q else q

/-- Witness object fields read by the circuit validators
(`witness.a`, `witness.b`, `witness.sideA`, `witness.sideB`,
`witness.preimage`); a missing field is `none`. -/
structure Witness where
  a : Option ℚ := none
  b : Option ℚ := none
  sideA : Option ℚ := none
  sideB : Option ℚ := none
  preimage : Option String := none
  deriving DecidableEq

/-- Public-input object; the validators only read `publicInput.c`. -/
structure PublicInput where
  c : Option ℚ := none
  deriving DecidableEq

/-- The failure reasons the marlin-simulator.js validators can produce,
abstracting the interpolated message strings by their distinguishing
content (`idx` is the 0-based constraint index; messages print `idx + 1`). -/
inductive SimReason where
  | multiplicationFailed (a b expected : ℚ)
  | pythagoreanFailed
  | emptyPreimage
  | preimageTooLong
  | noConstraints
  | incomplete (idx : ℕ)
  | emptyInvalid (idx : ℕ)
  | noVariables
  | invalidExpr (idx : ℕ)
  | contradiction (idx : ℕ)
  | zeroMul (idx : ℕ)
  deriving DecidableEq

/-- Return value `{valid, reason}` of the per-circuit validators; a valid
result carries the empty reason (modelled as `none`). -/
structure CheckResult where
  valid : Bool
  reason : Option SimReason
  deriving DecidableEq

/-- `MarlinSimulator.validateMultiplicationCircuit(witness, publicInput)`
(marlin-simulator.js lines 133–151): `a × b` must match `publicInput.c`
within the float tolerance `0.001`; missing fields default to `0` via
`|| 0`. -/
def validateMultiplicationCircuit (witness : Witness) (publicInput : PublicInput) :
    CheckResult :=
  let a := witness.a.getD 0
  let b := witness.b.getD 0
  let expectedC := publicInput.c.getD 0
  let actualC := a * b
  if jsAbs (actualC - expectedC) > 1 / 1000 then
    { valid := false, reason := some (.multiplicationFailed a b actualC) }
  else
    { valid := true, reason := none }

/-- Decides `|Real.sqrt s - c| > 1/1000` for `s ≥ 0` without computing the
square root, by squaring each side of the two strict comparisons:
`√s > c + ε ↔ (c + ε < 0 ∨ s > (c + ε)²)` and
`√s < c - ε ↔ (c - ε > 0 ∧ s < (c - ε)²)`. -/
def quadMismatch (s c : ℚ) : Bool :=
  let hi := c + 1 / 1000
  let lo := c - 1 / 1000
  (decide (hi < 0) || decide (s > hi * hi)) || (decide (0 < lo) && decide (s < lo * lo))

/-- `MarlinSimulator.validateQuadraticCircuit(witness, publicInput)`
(marlin-simulator.js lines 154–172): checks `|√(a² + b²) - c| ≤ 0.001`,
where a falsy `publicInput.c` (absent or `0`) defaults to the computed
square root itself, making the check pass trivially.  The square-root
comparison is decided exactly via `quadMismatch`. -/
def validateQuadraticCircuit (witness : Witness) (publicInput : PublicInput) :
    CheckResult :=
  let a := witness.sideA.getD 0
  let b := witness.sideB.getD 0
  let sq := a * a + b * b
  match publicInput.c with
  | some q =>
    if q = 0 then { valid := true, reason := none }
    else if quadMismatch sq q then { valid := false, reason := some .pythagoreanFailed }
    else { valid := true, reason := none }
  | none => { valid := true, reason := none }

/-- `MarlinSimulator.validateHashCircuit(witness, publicInput)`
(marlin-simulator.js lines 175–191): nonempty preimage of length at most
100 required. -/
def validateHashCircuit (witness : Witness) : CheckResult :=
  let preimage := witness.preimage.getD ""
  if preimage.length = 0 then { valid := false, reason := some .emptyPreimage }
  else if preimage.length > 100 then { valid := false, reason := some .preimageTooLong }
  else { valid := true, reason := none }

/-- One constraint of the `circuitData.constraints` list, as in
`RealMarlin.Constraint` but kept separate because this validator compares
operands with `===` instead of evaluating them. -/
structure JSConstraint where
  left : JSVal
  right : JSVal
  output : JSVal
  deriving DecidableEq

/-- A `circuitData.variables` entry; `type` is a free-form string compared
against the literals `public` and `private`. -/
structure VarDecl where
  name : String
  type : String
  deriving DecidableEq

/-- The `circuitData` object for custom circuits. -/
structure CircuitData where
  constraints : List JSConstraint
  vars : List VarDecl
  deriving DecidableEq

/-- The per-constraint format loop of `validateCustomCircuit`
(marlin-simulator.js lines 201–219): returns the first error, if any.
A constraint with all three operands falsy is incomplete; the
all-empty-string check on line 213 is subsumed by the first check and
therefore unreachable, but is modelled anyway. -/
def formatCheck : List JSConstraint → ℕ → Option SimReason
  | [], _ => none
  | c :: rest, i =>
    if !(truthy c.left) && !(truthy c.right) && !(truthy c.output) then
      some (.incomplete i)
    else if jsEq c.left c.right && jsEq c.left c.output && jsEq c.left (.str "") then
      some (.emptyInvalid i)
    else formatCheck rest (i + 1)

/-- `MarlinSimulator.simulateConstraintSatisfaction(constraints, witness,
publicInput)` (marlin-simulator.js lines 243–274): pattern checks by strict
string equality, returning at the first failing constraint.  `witness` and
`publicInput` are unused by the body and omitted. -/
def simulateConstraintSatisfaction : List JSConstraint → ℕ → Option SimReason
  | [], _ => none
  | c :: rest, i =>
    if jsEq c.left (.str invalidStr) || jsEq c.right (.str invalidStr)
        || jsEq c.output (.str invalidStr) then
      some (.invalidExpr i)
    else if jsEq c.left (.str oneStr) && jsEq c.right (.str oneStr)
        && jsEq c.output (.str zeroStr) then
      some (.contradiction i)
    else if jsEq c.left (.str zeroStr) && !(jsEq c.output (.str zeroStr)) then
      some (.zeroMul i)
    else simulateConstraintSatisfaction rest (i + 1)

/-- `MarlinSimulator.validateCustomCircuit(witness, publicInput, circuitData)`
(marlin-simulator.js lines 194–240): a missing `circuitData` or an empty
constraint list is rejected outright; then the format loop, the
variable-presence check and `simulateConstraintSatisfaction` run in order,
each short-circuiting on its first failure.  The `try`/`catch` body cannot
throw for well-formed `circuitData` and is not modelled. -/
def validateCustomCircuit (witness : Witness) (publicInput : PublicInput)
    (circuitData : Option CircuitData) : CheckResult :=
  match circuitData with
  | none => { valid := false, reason := some .noConstraints }
  | some d =>
    if d.constraints.isEmpty then { valid := false, reason := some .noConstraints }
    else
      match formatCheck d.constraints 0 with
      | some r => { valid := false, reason := some r }
      | none =>
        if (d.vars.filter (fun v => v.type = publicStr)).isEmpty
            ∧ (d.vars.filter (fun v => v.type = privateStr)).isEmpty then
          { valid := false, reason := some .noVariables }
        else
          match simulateConstraintSatisfaction d.constraints 0 with
          | some r => { valid := false, reason := some r }
          | none => { valid := true, reason := none }

/-- `MarlinSimulator.validateCircuitConstraints(circuitType, witness,
publicInput, circuitData)` (marlin-simulator.js lines 116–130): dispatch on
the circuit-type string; unknown tags pass trivially. -/
def validateCircuitConstraints (circuitType : String) (witness : Witness)
    (publicInput : PublicInput) (circuitData : Option CircuitData) : CheckResult :=
  if circuitType = simpleStr ∨ circuitType = multiplicationStr then
    validateMultiplicationCircuit witness publicInput
  else if circuitType = quadraticStr then
    validateQuadraticCircuit witness publicInput
  else if circuitType = hashStr then
    validateHashCircuit witness
  else if circuitType = customStr then
    validateCustomCircuit witness publicInput circuitData
  else
    { valid := true, reason := none }

/-- `MarlinSimulator.estimateProofSize()` (marlin-simulator.js lines
285–289): `floor(1024 + sqrt(n) * 32)`.  Since `32 · √n = √(1024 n)` and
`Nat.sqrt m = ⌊√m⌋`, the exact value is `1024 + Nat.sqrt (1024 * n)`. -/
def estimateProofSize (currentConstraints : ℕ) : ℕ :=
  1024 + Nat.sqrt (1024 * currentConstraints)

/-- `MarlinSimulator.getEvaluationCount()` (marlin-simulator.js lines
316–319): `min(16, max(4, floor(n / 100)))`. -/
def getEvaluationCount (currentConstraints : ℕ) : ℕ :=
  min 16 (max 4 (currentConstraints / 100))

/-- `MarlinSimulator.getDelayForConstraints()` (marlin-simulator.js lines
292–297). -/
def getDelayForConstraints (currentConstraints : ℕ) : ℕ :=
  if currentConstraints < 100 then 500
  else if currentConstraints < 1000 then 1000
  else if currentConstraints < 10000 then 2000
  else 3000

/-- `MarlinSimulator.getCommitmentRounds()` (marlin-simulator.js lines
300–314): fixed `[3,2,1]` shape, rounds 0 and 1 each gain one extra
commitment when `currentConstraints > 10000`.  Random hex blobs are
modelled by the supplied draw `r`. -/
def getCommitmentRounds (currentConstraints : ℕ) (r : ℕ) : List (List ℕ) :=
  if currentConstraints > 10000 then [[r, r, r, r], [r, r, r], [r]]
  else [[r, r, r], [r, r], [r]]

/-- The universal SRS produced by `simulateUniversalSetup`
(marlin-simulator.js lines 13–24); `parameters` is a random hex blob and
`timestamp` a wall-clock reading, both explicit arguments. -/
structure SRS where
  maxDegree : ℕ
  parameters : ℕ
  timestamp : ℕ
  deriving DecidableEq

/-- `indexInfo` of the verifier key (marlin-simulator.js lines 36–40). -/
structure IndexInfo where
  numConstraints : ℕ
  numVariables : ℕ
  numNonZero : ℕ
  deriving DecidableEq

/-- Prover key half of the index keys (marlin-simulator.js lines 31–34). -/
structure ProverKey where
  indexCommitments : ℕ
  committerKey : ℕ
  deriving DecidableEq

/-- Verifier key half of the index keys (marlin-simulator.js lines 35–43);
the inner random blob also named `verifierKey` in the source is `vkey`
here. -/
structure VerifierKey where
  indexInfo : IndexInfo
  indexComms : ℕ
  vkey : ℕ
  deriving DecidableEq

/-- The index keys produced by `simulateIndexGeneration`. -/
structure IndexKeys where
  proverKey : ProverKey
  verifierKey : VerifierKey
  deriving DecidableEq

/-- The proof object produced by `simulateProofGeneration`
(marlin-simulator.js lines 56–68); random field elements and hex blobs are
modelled by the draw `r`, and the witness and public input are stored
alongside the artifact exactly as in the source. -/
structure Proof where
  commitments : List (List ℕ)
  evaluations : List ℕ
  proverMessages : List ℕ
  pcProof : ℕ
  size : ℕ
  witness : Witness
  publicInput : PublicInput
  deriving DecidableEq

/-- The mutable fields of a `MarlinSimulator` instance
(marlin-simulator.js lines 3–10). -/
structure SimState where
  universalSRS : Option SRS
  indexKeys : Option IndexKeys
  proof : Option Proof
  currentConstraints : ℕ
  currentVariables : ℕ
  deriving DecidableEq

/-- The constructor state: no artifacts, 100 constraints, 50 variables. -/
def initialState : SimState :=
  { universalSRS := none
    indexKeys := none
    proof := none
    currentConstraints := 100
    currentVariables := 50 }

/-- `MarlinSimulator.simulateUniversalSetup(constraints, variables, nonZero)`
(marlin-simulator.js lines 13–24): stores a fresh SRS; note that it does
not update `currentConstraints`/`currentVariables` and performs no
precondition check. -/
def simulateUniversalSetup (s : SimState) (numConstraints numVariables nonZero : ℕ)
    (r t : ℕ) : SimState × SRS :=
  let srs : SRS :=
    { maxDegree := max (max numConstraints numVariables) nonZero * 2
      parameters := r
      timestamp := t }
  ({ s with universalSRS := some srs }, srs)

/-- `MarlinSimulator.simulateIndexGeneration(circuitDescription)`
(marlin-simulator.js lines 27–48): unconditionally derives index keys from
the instance's current sizes (`numNonZero = floor(0.7 · numConstraints)`)
and stores them; it never consults `universalSRS`. -/
def simulateIndexGeneration (s : SimState) (r : ℕ) : SimState × IndexKeys :=
  let keys : IndexKeys :=
    { proverKey := { indexCommitments := r, committerKey := r }
      verifierKey :=
        { indexInfo :=
            { numConstraints := s.currentConstraints
              numVariables := s.currentVariables
              numNonZero := 7 * s.currentConstraints / 10 }
          indexComms := r
          vkey := r } }
  ({ s with indexKeys := some keys }, keys)

/-- `MarlinSimulator.simulateProofGeneration(witness, publicInput)`
(marlin-simulator.js lines 51–72): unconditionally shapes a proof from the
sizing model, stores the witness and public input inside it, and commits it
to the instance; it never consults `indexKeys`. -/
def simulateProofGeneration (s : SimState) (witness : Witness)
    (publicInput : PublicInput) (r : ℕ) : SimState × Proof :=
  let proof : Proof :=
    { commitments := getCommitmentRounds s.currentConstraints r
      evaluations := List.replicate (getEvaluationCount s.currentConstraints) r
      proverMessages := [r, r, r]
      pcProof := r
      size := estimateProofSize s.currentConstraints
      witness := witness
      publicInput := publicInput }
  ({ s with proof := some proof }, proof)

/-- Entries of `checksPerformed` (marlin-simulator.js lines 84–96),
abstracting the message strings. -/
inductive Check where
  | polyCommit
  | linComb
  | querySet
  | fiatShamir
  | constraintFailed (reason : Option SimReason)
  | constraintsOk
  deriving DecidableEq

/-- The `VerificationResult` returned by `simulateVerification`
(marlin-simulator.js lines 105–110). -/
structure VerificationResult where
  isValid : Bool
  failureReason : Option SimReason
  verificationTime : ℕ
  checksPerformed : List Check
  deriving DecidableEq

/-- `MarlinSimulator.simulateVerification(proof, publicInput, circuitType,
circuitData)` (marlin-simulator.js lines 75–113): four always-passing
generic checks followed by the circuit-constraint validation of the witness
stored in the proof; `verificationTime` is
`Math.floor(Math.random() * 50) + 10`, modelled as `r % 50 + 10` for an
explicit draw `r`. -/
def simulateVerification (proof : Proof) (publicInput : PublicInput)
    (circuitType : String) (circuitData : Option CircuitData) (r : ℕ) :
    VerificationResult :=
  let constraintCheck :=
    validateCircuitConstraints circuitType proof.witness publicInput circuitData
  { isValid := constraintCheck.valid
    failureReason := constraintCheck.reason
    verificationTime := r % 50 + 10
    checksPerformed :=
      [.polyCommit, .linComb, .querySet, .fiatShamir]
        ++ (if constraintCheck.valid then [.constraintsOk]
            else [.constraintFailed constraintCheck.reason]) }

end MarlinSimulator

namespace RealMarlin

/-- Splitting the error accumulation of `validateCustomCircuit` at a list
append: later constraints are still visited, with indices shifted by the
length of the earlier block. -/
theorem collectErrors_append (vars : List (String × ℚ))
    (xs ys : List Constraint) (k : ℕ) :
    collectErrors vars (xs ++ ys) k
      = collectErrors vars xs k ++ collectErrors vars ys (k + xs.length) := by
  induction xs generalizing k with
  | nil => simp [collectErrors]
  | cons c rest ih =>
    have harg : k + (rest.length + 1) = (k + 1) + rest.length := by omega
    simp only [List.cons_append, collectErrors, List.length_cons, harg]
    cases checkConstraint vars c k <;> simp [ih]

/-- The error accumulation of `validateCustomCircuit`, characterised by
index: for each position `j` of the constraint list, the error of the
constraint at `j` (if any) appears, in order. -/
theorem collectErrors_eq_range (vars : List (String × ℚ))
    (cs : List Constraint) (k : ℕ) :
    collectErrors vars cs k
      = (List.range cs.length).filterMap
          (fun j => (cs.get? j).bind fun c => checkConstraint vars c (k + j)) := by
  induction cs generalizing k with
  | nil => simp [collectErrors]
  | cons c rest ih =>
    have hfun : ∀ j ∈ List.range rest.length,
        ((fun j => ((c :: rest).get? j).bind fun x => checkConstraint vars x (k + j))
            ∘ Nat.succ) j
          = (fun j => (rest.get? j).bind fun x => checkConstraint vars x ((k + 1) + j)) j := by
      intro j _
      have hadd : k + (j + 1) = k + 1 + j := by omega
      simp [Function.comp, hadd]
    rw [List.length_cons, List.range_succ_eq_map, List.filterMap_cons, List.filterMap_map,
      List.filterMap_congr hfun]
    cases h : checkConstraint vars c k with
    | none => simp [collectErrors, h, ih (k + 1)]
    | some e => simp [collectErrors, h, ih (k + 1)]

end RealMarlin

/-- Claim C1 (code_bug): the claim states that `fullDemo(a, b, a*b)` always
verifies with `isValid = true`; but `RealMarlinSystem.simulateVerification`
hardcodes the witness `3, 5` instead of using the witness captured at Prove
time, so `fullDemo(2, 3, 6)` reports `proof_verification = false` even
though its own independently computed `is_constraint_satisfied` is `true`
for the same run — the code contradicts itself at this input. -/
theorem fullDemo_verify_ignores_witness :
    (RealMarlin.simulateFullDemo 2 3 6 ⟨0, 0, 0, 0, 0⟩).is_constraint_satisfied = true ∧
    (RealMarlin.simulateFullDemo 2 3 6 ⟨0, 0, 0, 0, 0⟩).proof_verification = false ∧
    (RealMarlin.simulateVerification 6 0).is_valid = false := by
  decide

/-- Claim C2 counterexample: the constraint `{left: 0, right: undefined,
output: 0}` has `k = 0` and an arbitrary (here absent) right operand, so the
claim says it always passes; the part_000 validator instead rejects it as
incomplete because a falsy operand fails the completeness check, so
validation does not pass. -/
theorem zero_absorption_claim_cex :
    (RealMarlin.validateCustomCircuit [] [⟨.str zeroStr, .undef, .str zeroStr⟩]).isValid
        = false ∧
    (RealMarlin.validateCustomCircuit [] [⟨.str zeroStr, .undef, .str zeroStr⟩]).errors
        = [.incomplete 0] := by
  decide

/-- Claim C2 (corrected): for a constraint that passes the completeness
check (all three operands truthy) and whose left operand evaluates to 0,
the part_000 custom validator fails it with the zero-absorption error
exactly when the output evaluates to a nonzero value, and accepts it
(no error) when the output evaluates to 0, whatever the right operand
evaluates to. -/
theorem zero_absorption_complete_constraints (vars : List (String × ℚ))
    (c : RealMarlin.Constraint) (i : ℕ)
    (hl : truthy c.left = true) (hr : truthy c.right = true)
    (ho : truthy c.output = true)
    (hzero : RealMarlin.evaluateExpression c.left vars = 0) :
    (RealMarlin.evaluateExpression c.output vars ≠ 0 →
      RealMarlin.checkConstraint vars c i
        = some (.zeroAbsorption i (RealMarlin.evaluateExpression c.output vars))) ∧
    (RealMarlin.evaluateExpression c.output vars = 0 →
      RealMarlin.checkConstraint vars c i = none) := by
  unfold RealMarlin.checkConstraint
  simp only [hl, hr, ho, hzero, Bool.not_true, Bool.false_or, Bool.or_self,
    if_false, Bool.false_eq_true]
  constructor <;> intro h <;> simp [h]

/-- Concrete instance of `zero_absorption_complete_constraints`: the
complete constraint `{left: "0", right: 2, output: "0"}` produces no error,
and `{left: "0", right: 2, output: 5}` produces the zero-absorption
error. -/
theorem zero_absorption_complete_constraints_witness :
    RealMarlin.checkConstraint [] ⟨.str zeroStr, .num 2, .str zeroStr⟩ 0 = none ∧
    RealMarlin.checkConstraint [] ⟨.str zeroStr, .num 2, .num 5⟩ 0
      = some (.zeroAbsorption 0 5) := by
  constructor
  · exact (zero_absorption_complete_constraints [] ⟨.str zeroStr, .num 2, .str zeroStr⟩ 0
      (by decide) (by decide) (by decide) (by decide)).2 (by decide)
  · have h := (zero_absorption_complete_constraints [] ⟨.str zeroStr, .num 2, .num 5⟩ 0
      (by decide) (by decide) (by decide) (by decide)).1 (by decide)
    simpa using h

/-- Claim C3 counterexample: the constraint `{left: 1, right: 1, output: 0}`
with numeric literals has operands that evaluate to 1, 1, 0, yet the
part_000 validator reports it as incomplete (the falsy literal `0` fails the
completeness check first), not with the contradiction-specific message. -/
theorem contradiction_claim_cex :
    (RealMarlin.validateCustomCircuit [] [⟨.num 1, .num 1, .num 0⟩]).errors
        = [.incomplete 0] ∧
    RealMarlin.ConstraintError.incomplete 0 ≠ RealMarlin.ConstraintError.contradiction 0 ∧
    RealMarlin.evaluateExpression (.num 1) [] = 1 ∧
    RealMarlin.evaluateExpression (.num 0) [] = 0 := by
  refine ⟨by decide, by decide, rfl, rfl⟩

/-- Claim C3 (corrected): for a constraint that passes the completeness
check (all three operands truthy) and whose operands evaluate to 1, 1 and 0,
the part_000 custom validator reports `isValid = false` and its error list
contains the contradiction error for that constraint, regardless of the
other constraints supplied in the same call. -/
theorem contradiction_rule_complete_constraints (vars : List (String × ℚ))
    (pre post : List RealMarlin.Constraint) (c : RealMarlin.Constraint)
    (hl : truthy c.left = true) (hr : truthy c.right = true)
    (ho : truthy c.output = true)
    (el : RealMarlin.evaluateExpression c.left vars = 1)
    (er : RealMarlin.evaluateExpression c.right vars = 1)
    (eo : RealMarlin.evaluateExpression c.output vars = 0) :
    (RealMarlin.validateCustomCircuit vars (pre ++ c :: post)).isValid = false ∧
    RealMarlin.ConstraintError.contradiction pre.length
      ∈ (RealMarlin.validateCustomCircuit vars (pre ++ c :: post)).errors := by
  have hc : RealMarlin.checkConstraint vars c pre.length
      = some (.contradiction pre.length) := by
    unfold RealMarlin.checkConstraint
    simp [hl, hr, ho, el, er, eo]
  have herr : (RealMarlin.validateCustomCircuit vars (pre ++ c :: post)).errors
      = RealMarlin.collectErrors vars pre 0
        ++ RealMarlin.ConstraintError.contradiction pre.length
          :: RealMarlin.collectErrors vars post (pre.length + 1) := by
    show RealMarlin.collectErrors vars (pre ++ c :: post) 0 = _
    rw [RealMarlin.collectErrors_append]
    simp [RealMarlin.collectErrors, hc]
  have hmem : RealMarlin.ConstraintError.contradiction pre.length
      ∈ (RealMarlin.validateCustomCircuit vars (pre ++ c :: post)).errors := by
    rw [herr]
    exact List.mem_append_right _ (List.mem_cons_self _ _)
  refine ⟨?_, hmem⟩
  show (RealMarlin.collectErrors vars (pre ++ c :: post) 0).isEmpty = false
  have : RealMarlin.collectErrors vars (pre ++ c :: post) 0 ≠ [] := by
    intro hnil
    rw [show RealMarlin.collectErrors vars (pre ++ c :: post) 0
        = (RealMarlin.validateCustomCircuit vars (pre ++ c :: post)).errors from rfl,
      herr] at hnil
    simp at hnil
  simpa [List.isEmpty_iff] using this

/-- Concrete instance of `contradiction_rule_complete_constraints`: the
single complete constraint `{left: "1", right: 1, output: "0"}` evaluates to
1, 1, 0 and is reported as contradictory. -/
theorem contradiction_rule_complete_constraints_witness :
    (RealMarlin.validateCustomCircuit []
        [⟨.str oneStr, .num 1, .str zeroStr⟩]).isValid = false ∧
    RealMarlin.ConstraintError.contradiction 0
      ∈ (RealMarlin.validateCustomCircuit []
          [⟨.str oneStr, .num 1, .str zeroStr⟩]).errors := by
  have h := contradiction_rule_complete_constraints [] [] []
    ⟨.str oneStr, .num 1, .str zeroStr⟩
    (by decide) (by decide) (by decide) (by decide) (by decide) (by decide)
  simpa using h

/-- Claim C4 counterexample: the part_000 custom validator accepts the empty
constraint list (`forEach` over nothing pushes no error, so
`isValid = errors.isEmpty() = true`), contradicting "always returns
isValid = false ... never vacuously valid". -/
theorem empty_constraints_vacuous_cex :
    (RealMarlin.validateCustomCircuit [] []).isValid = true := by
  decide

/-- Claim C4 (corrected): the marlin-simulator.js custom validator rejects a
missing or empty constraint list with the no-constraints-defined error; the
part_000 custom validator instead returns `isValid = true` on an empty
constraint list (vacuously valid). -/
theorem empty_constraints_rejected :
    (∀ w p, MarlinSimulator.validateCustomCircuit w p none
        = { valid := false, reason := some .noConstraints }) ∧
    (∀ w p vs, MarlinSimulator.validateCustomCircuit w p (some ⟨[], vs⟩)
        = { valid := false, reason := some .noConstraints }) ∧
    (∀ vars, (RealMarlin.validateCustomCircuit vars []).isValid = true) := by
  exact ⟨fun w p => rfl, fun w p vs => rfl, fun vars => rfl⟩

/-- Claim C5: the part_000 custom validator accumulates errors across all
constraints rather than short-circuiting: the error list is exactly the
in-order concatenation of the per-constraint errors (one entry per failing
constraint, every position checked), `isValid` holds exactly when the error
list is empty, and every failing constraint contributes its error to the
result even when other constraints failed before it. -/
theorem errors_accumulated_all_constraints (vars : List (String × ℚ))
    (cs : List RealMarlin.Constraint) :
    ((RealMarlin.validateCustomCircuit vars cs).errors
        = (List.range cs.length).filterMap
            (fun j => (cs.get? j).bind fun c => RealMarlin.checkConstraint vars c j)) ∧
    ((RealMarlin.validateCustomCircuit vars cs).isValid = true ↔
        (RealMarlin.validateCustomCircuit vars cs).errors = []) ∧
    (∀ j c e, cs.get? j = some c → RealMarlin.checkConstraint vars c j = some e →
        e ∈ (RealMarlin.validateCustomCircuit vars cs).errors) := by
  have hrange : (RealMarlin.validateCustomCircuit vars cs).errors
      = (List.range cs.length).filterMap
          (fun j => (cs.get? j).bind fun c => RealMarlin.checkConstraint vars c j) := by
    show RealMarlin.collectErrors vars cs 0 = _
    rw [RealMarlin.collectErrors_eq_range]
    simp
  refine ⟨hrange, ?_, ?_⟩
  · show (RealMarlin.collectErrors vars cs 0).isEmpty = true ↔
      RealMarlin.collectErrors vars cs 0 = []
    simp [List.isEmpty_iff]
  · intro j c e hget hchk
    rw [hrange]
    have hj : j < cs.length := by
      rcases List.get?_eq_some.mp hget with ⟨hlt, _⟩
      exact hlt
    refine List.mem_filterMap.mpr ⟨j, ?_, ?_⟩
    · simpa [List.mem_range] using hj
    · show (cs.get? j).bind (fun a => RealMarlin.checkConstraint vars a j) = some e
      rw [hget]
      simpa using hchk

/-- Concrete instance of `errors_accumulated_all_constraints`: a list whose
first constraint is incomplete and whose second is contradictory yields both
errors, in order; in particular the second constraint is still checked after
the first has failed. -/
theorem errors_accumulated_all_constraints_witness :
    (RealMarlin.validateCustomCircuit []
        [⟨.num 1, .num 2, .undef⟩, ⟨.str oneStr, .num 1, .str zeroStr⟩]).errors
      = [.incomplete 0, .contradiction 1] ∧
    RealMarlin.ConstraintError.contradiction 1
      ∈ (RealMarlin.validateCustomCircuit []
          [⟨.num 1, .num 2, .undef⟩, ⟨.str oneStr, .num 1, .str zeroStr⟩]).errors := by
  constructor
  · decide
  · exact (errors_accumulated_all_constraints []
        [⟨.num 1, .num 2, .undef⟩, ⟨.str oneStr, .num 1, .str zeroStr⟩]).2.2
      1 ⟨.str oneStr, .num 1, .str zeroStr⟩ (.contradiction 1) (by decide) (by decide)

/-- Claim C6: for every expression and variable-binding map,
`evaluateExpression` returns the expression itself when it is numeric, the
bound value when it is a variable name present in the bindings, the parsed
numeric value when it is an unbound string parseable as a number, and 0 in
every other case (unbound unparseable string, or a non-number non-string
value); it is a total function and never raises an error. -/
theorem evaluateExpression_cases (bindings : List (String × ℚ)) (q : ℚ)
    (s : String) (v : ℚ) :
    RealMarlin.evaluateExpression (.num q) bindings = q ∧
    (List.lookup s bindings = some v →
      RealMarlin.evaluateExpression (.str s) bindings = v) ∧
    (∀ p : ℚ, List.lookup s bindings = none → parseFloat s = some p →
      RealMarlin.evaluateExpression (.str s) bindings = p) ∧
    (List.lookup s bindings = none → parseFloat s = none →
      RealMarlin.evaluateExpression (.str s) bindings = 0) ∧
    RealMarlin.evaluateExpression .undef bindings = 0 := by
  refine ⟨rfl, ?_, ?_, ?_, rfl⟩
  · intro h
    simp [RealMarlin.evaluateExpression, h]
  · intro p h hp
    simp [RealMarlin.evaluateExpression, h, hp]
  · intro h hp
    simp [RealMarlin.evaluateExpression, h, hp]

/-- Concrete instances of `evaluateExpression_cases`: a numeric literal, a
bound variable, an unbound numeric string, and an unbound unparseable
string. -/
theorem evaluateExpression_cases_witness :
    RealMarlin.evaluateExpression (.num 3) [(xStr, 7)] = 3 ∧
    RealMarlin.evaluateExpression (.str xStr) [(xStr, 7)] = 7 ∧
    RealMarlin.evaluateExpression (.str oneStr) [] = 1 ∧
    RealMarlin.evaluateExpression (.str invalidStr) [] = 0 := by
  refine ⟨(evaluateExpression_cases [(xStr, 7)] 3 xStr 7).1, ?_, ?_, ?_⟩
  · exact (evaluateExpression_cases [(xStr, 7)] 3 xStr 7).2.1 (by decide)
  · exact (evaluateExpression_cases [] 3 oneStr 7).2.2.1 1 (by decide) (by decide)
  · exact (evaluateExpression_cases [] 3 invalidStr 7).2.2.2.1 (by decide) (by decide)

/-- Claim C7: the sizing model is monotone and bounded: for `n₁ < n₂` the
synthetic proof size `1024 + ⌊√n · 32⌋` does not decrease, and the
evaluation count `min(16, max(4, ⌊n / 100⌋))` is non-decreasing, always
lies in `[4, 16]`, and equals the spec's `clamp(⌊n / 100⌋, min=4, max=16)`. -/
theorem sizing_model_monotone (n₁ n₂ n : ℕ) (h : n₁ < n₂) :
    MarlinSimulator.estimateProofSize n₁ ≤ MarlinSimulator.estimateProofSize n₂ ∧
    MarlinSimulator.getEvaluationCount n₁ ≤ MarlinSimulator.getEvaluationCount n₂ ∧
    4 ≤ MarlinSimulator.getEvaluationCount n ∧
    MarlinSimulator.getEvaluationCount n ≤ 16 ∧
    MarlinSimulator.getEvaluationCount n = max 4 (min 16 (n / 100)) := by
  refine ⟨?_, ?_, ?_, ?_, ?_⟩
  · unfold MarlinSimulator.estimateProofSize
    have hs : Nat.sqrt (1024 * n₁) ≤ Nat.sqrt (1024 * n₂) :=
      Nat.sqrt_le_sqrt (Nat.mul_le_mul_left 1024 h.le)
    omega
  · unfold MarlinSimulator.getEvaluationCount
    have hd : n₁ / 100 ≤ n₂ / 100 := Nat.div_le_div_right h.le
    omega
  · unfold MarlinSimulator.getEvaluationCount
    omega
  · unfold MarlinSimulator.getEvaluationCount
    omega
  · unfold MarlinSimulator.getEvaluationCount
    omega

/-- Concrete instance of `sizing_model_monotone` at sizes 100 < 400 and
n = 1700 (where the clamp saturates at 16). -/
theorem sizing_model_monotone_witness :
    MarlinSimulator.estimateProofSize 100 ≤ MarlinSimulator.estimateProofSize 400 ∧
    MarlinSimulator.getEvaluationCount 100 ≤ MarlinSimulator.getEvaluationCount 400 ∧
    4 ≤ MarlinSimulator.getEvaluationCount 1700 ∧
    MarlinSimulator.getEvaluationCount 1700 ≤ 16 := by
  have h := sizing_model_monotone 100 400 1700 (by norm_num)
  exact ⟨h.1, h.2.1, h.2.2.1, h.2.2.2.1⟩

/-- Claim C8 counterexample: two verify calls on the identical stored proof,
public input, circuit type and circuit data, differing only in the
`Math.random()` draw behind `verificationTime`, return different
`VerificationResult`s — so the result is not a deterministic function of
those inputs alone, and repeated calls do not produce identical results. -/
theorem verify_time_randomness_cex :
    MarlinSimulator.simulateVerification
        { commitments := [], evaluations := [], proverMessages := [], pcProof := 0,
          size := 0, witness := { preimage := some xStr }, publicInput := {} }
        {} hashStr none 0
      ≠ MarlinSimulator.simulateVerification
        { commitments := [], evaluations := [], proverMessages := [], pcProof := 0,
          size := 0, witness := { preimage := some xStr }, publicInput := {} }
        {} hashStr none 1 := by
  intro heq
  have ht : (0 : ℕ) % 50 + 10 = 1 % 50 + 10 :=
    congrArg MarlinSimulator.VerificationResult.verificationTime heq
  omega

/-- Claim C8 (corrected): apart from `verificationTime` (which is derived
from a fresh `Math.random()` draw), `simulateVerification` is a
deterministic function of the stored proof, public input, circuit type and
circuit data: `isValid`, `failureReason` and `checksPerformed` agree across
any two calls with identical inputs. -/
theorem verify_deterministic_except_time (p : MarlinSimulator.Proof)
    (pub : MarlinSimulator.PublicInput) (ct : String)
    (cd : Option MarlinSimulator.CircuitData) (r₁ r₂ : ℕ) :
    (MarlinSimulator.simulateVerification p pub ct cd r₁).isValid
      = (MarlinSimulator.simulateVerification p pub ct cd r₂).isValid ∧
    (MarlinSimulator.simulateVerification p pub ct cd r₁).failureReason
      = (MarlinSimulator.simulateVerification p pub ct cd r₂).failureReason ∧
    (MarlinSimulator.simulateVerification p pub ct cd r₁).checksPerformed
      = (MarlinSimulator.simulateVerification p pub ct cd r₂).checksPerformed := by
  exact ⟨rfl, rfl, rfl⟩

/-- Claim C9 counterexample: on the freshly constructed simulator state,
which holds no index keys (and no SRS), `simulateProofGeneration` still
succeeds and commits a proof artifact to the state — there is no
`StateError` and the artifact is produced despite the missing
precondition. -/
theorem prove_without_index_succeeds_cex :
    MarlinSimulator.initialState.indexKeys = none ∧
    MarlinSimulator.initialState.universalSRS = none ∧
    (MarlinSimulator.simulateProofGeneration MarlinSimulator.initialState
        { a := some 3, b := some 5 } { c := some 15 } 0).1.proof
      = some (MarlinSimulator.simulateProofGeneration MarlinSimulator.initialState
        { a := some 3, b := some 5 } { c := some 15 } 0).2 ∧
    (MarlinSimulator.simulateProofGeneration MarlinSimulator.initialState
        { a := some 3, b := some 5 } { c := some 15 } 0).2.size = 1344 := by
  refine ⟨rfl, rfl, rfl, ?_⟩
  have hsq : Nat.sqrt 102400 = 320 := by
    rw [show (102400 : ℕ) = 320 ^ 2 by norm_num, Nat.sqrt_eq']
  have h1 : (MarlinSimulator.simulateProofGeneration MarlinSimulator.initialState
      { a := some 3, b := some 5 } { c := some 15 } 0).2.size
      = MarlinSimulator.estimateProofSize 100 := rfl
  rw [h1, MarlinSimulator.estimateProofSize]
  norm_num [hsq]

/-- Claim C9 (corrected): no pipeline stage checks its precondition: prove
always produces and stores a proof artifact even when no index keys are
present, and index always produces and stores index keys even when no SRS
is present; no stage fails with a `StateError`. -/
theorem no_stage_precondition_checks (s s' : MarlinSimulator.SimState)
    (w : MarlinSimulator.Witness) (pub : MarlinSimulator.PublicInput) (r r' : ℕ)
    (h : s.indexKeys = none) (h' : s'.universalSRS = none) :
    (MarlinSimulator.simulateProofGeneration s w pub r).1.proof
      = some (MarlinSimulator.simulateProofGeneration s w pub r).2 ∧
    (MarlinSimulator.simulateIndexGeneration s' r').1.indexKeys
      = some (MarlinSimulator.simulateIndexGeneration s' r').2 := by
  exact ⟨rfl, rfl⟩

/-- Concrete instance of `no_stage_precondition_checks` on the initial
state, which has neither index keys nor an SRS. -/
theorem no_stage_precondition_checks_witness :
    MarlinSimulator.initialState.indexKeys = none ∧
    MarlinSimulator.initialState.universalSRS = none ∧
    (MarlinSimulator.simulateProofGeneration MarlinSimulator.initialState {} {} 7).1.proof
      = some (MarlinSimulator.simulateProofGeneration MarlinSimulator.initialState {} {} 7).2 ∧
    (MarlinSimulator.simulateIndexGeneration MarlinSimulator.initialState 7).1.indexKeys
      = some (MarlinSimulator.simulateIndexGeneration MarlinSimulator.initialState 7).2 := by
  refine ⟨rfl, rfl, ?_⟩
  exact no_stage_precondition_checks MarlinSimulator.initialState
    MarlinSimulator.initialState {} {} 7 7 rfl rfl

/-- Claim C10: in the part_000 custom validator, a constraint with any
falsy operand (absent, the number 0, or the empty string) is reported with
the incomplete-constraint error, its operands are never evaluated (the
outcome is the same under every variable binding), and in particular a
constraint whose operand is the numeric literal 0 is rejected as incomplete
rather than checked against the multiplication rules. -/
theorem falsy_operand_incomplete (vars vars₂ : List (String × ℚ))
    (c : RealMarlin.Constraint) (i : ℕ)
    (pre post : List RealMarlin.Constraint)
    (h : truthy c.left = false ∨ truthy c.right = false ∨ truthy c.output = false) :
    RealMarlin.checkConstraint vars c i = some (.incomplete i) ∧
    RealMarlin.checkConstraint vars c i = RealMarlin.checkConstraint vars₂ c i ∧
    RealMarlin.ConstraintError.incomplete pre.length
      ∈ (RealMarlin.validateCustomCircuit vars (pre ++ c :: post)).errors := by
  have hchk : ∀ (vs : List (String × ℚ)) (j : ℕ),
      RealMarlin.checkConstraint vs c j = some (.incomplete j) := by
    intro vs j
    unfold RealMarlin.checkConstraint
    rcases h with h | h | h <;> simp [h]
  refine ⟨hchk vars i, (hchk vars i).trans (hchk vars₂ i).symm, ?_⟩
  show RealMarlin.ConstraintError.incomplete pre.length
      ∈ RealMarlin.collectErrors vars (pre ++ c :: post) 0
  rw [RealMarlin.collectErrors_append]
  refine List.mem_append_right _ ?_
  simp [RealMarlin.collectErrors, hchk]

/-- Concrete instance of `falsy_operand_incomplete`: the constraint
`{left: 0, right: 2, output: 6}` (numeric-literal-0 left operand) is
rejected as incomplete, identically under two different bindings. -/
theorem falsy_operand_incomplete_witness :
    RealMarlin.checkConstraint [(xStr, 9)] ⟨.num 0, .num 2, .num 6⟩ 0
      = some (.incomplete 0) ∧
    RealMarlin.ConstraintError.incomplete 0
      ∈ (RealMarlin.validateCustomCircuit [(xStr, 9)]
          [⟨.num 0, .num 2, .num 6⟩]).errors := by
  have h := falsy_operand_incomplete [(xStr, 9)] [] ⟨.num 0, .num 2, .num 6⟩ 0 [] []
    (Or.inl (by decide))
  exact ⟨h.1, by simpa using h.2.2⟩
